import Mathlib

/-!
Shallow embedding of the spider_tutor repository (safety filter, suggestion
lookup, conversation buffer, and the chat front ends) together with proofs
of its specified properties.

Text is modelled as `List Char` (Python `str` is a sequence of code points;
the inputs of interest are ASCII, and Python `str.lower` restricted to ASCII
coincides with `Char.toLower`). The Python regular expressions of
`modules/safety.py` use only: literal characters, alternation `(a|b)`,
bounded repetition `.\x7b0,20\x7d`, the classes `.` and `\s` with `*` or `+`,
and the zero-width word boundary `\b`; the `Re` type below covers exactly
these constructs and `reSearch` implements `re.search` (match anywhere).
All patterns are compiled with `re.IGNORECASE` but are themselves entirely
lower-case and are only ever run on the lower-cased text, so matching is
modelled case-sensitively on the lower-cased text.
-/

namespace SpiderTutor

/-- Python `\w` (ASCII range): letters, digits, underscore. -/
def isWordChar (c : Char) : Bool :=
  (('a' ≤ c) && (c ≤ 'z')) || (('A' ≤ c) && (c ≤ 'Z')) ||
    (('0' ≤ c) && (c ≤ '9')) || (c == '_')

/-- Python `\s` (ASCII range): space, tab, newline, CR, VT, FF. -/
def pyWs (c : Char) : Bool :=
  (c == ' ') || (c == '\t') || (c == '\n') || (c == '\x0d') ||
    (c == '\x0b') || (c == '\x0c')

/-- Python `.` without DOTALL: any character except newline. -/
def pyDot (c : Char) : Bool := !(c == '\n')

/-- Regular-expression abstract syntax: exactly the constructs used by the
patterns in `modules/safety.py`. `starCls` is unbounded repetition of a
one-character class (the only unbounded repetition the patterns use). -/
inductive Re where
  | eps : Re
  | lit : Char → Re
  | cls : (Char → Bool) → Re
  | alt : Re → Re → Re
  | cat : Re → Re → Re
  | starCls : (Char → Bool) → Re
  | wordb : Re

/-- Is the character at position `i` of `s` a word character (false past the
end)? -/
def isWordAt (s : List Char) (i : Nat) : Bool :=
  if h : i < s.length then isWordChar (s.get ⟨i, h⟩) else false

/-- Python `\b`: a word boundary holds at position `i` when exactly one of
the character before and the character at `i` is a word character (positions
outside the text count as non-word). -/
def atBoundary (s : List Char) (i : Nat) : Bool :=
  match i with
  | 0 => isWordAt s 0
  | j + 1 => isWordAt s (j + 1) != isWordAt s j

/-- Matcher for `p*` where `p` is a one-character class, with explicit fuel
(the number of characters still available): succeed if the continuation `k`
accepts after consuming any number of `p`-characters starting at `i`.
Structural recursion on the fuel keeps the function kernel-reducible. -/
def mchStarFuel (p : Char → Bool) (s : List Char) (k : Nat → Bool) :
    Nat → Nat → Bool
  | i, 0 => k i
  | i, n + 1 =>
    k i ||
      (if h : i < s.length then
        p (s.get ⟨i, h⟩) && mchStarFuel p s k (i + 1) n
      else false)

/-- Matcher for `p*`: at position `i` at most `s.length - i` characters can
still be consumed. -/
def mchStar (p : Char → Bool) (s : List Char) (k : Nat → Bool) (i : Nat) : Bool :=
  mchStarFuel p s k i (s.length - i)

/-- Continuation-passing matcher: `mch s r i k` holds when `r` matches some
span of `s` starting at position `i` and `k` accepts the end position. -/
def mch (s : List Char) : Re → Nat → (Nat → Bool) → Bool
  | .eps, i, k => k i
  | .lit c, i, k =>
    if h : i < s.length then (s.get ⟨i, h⟩ == c) && k (i + 1) else false
  | .cls p, i, k =>
    if h : i < s.length then p (s.get ⟨i, h⟩) && k (i + 1) else false
  | .alt a b, i, k => mch s a i k || mch s b i k
  | .cat a b, i, k => mch s a i (fun j => mch s b j k)
  | .starCls p, i, k => mchStar p s k i
  | .wordb, i, k => atBoundary s i && k i

/-- Try to match `r` at positions `i, i + 1, ...` of `s`; the fuel is the
number of further positions to try after `i`. -/
def reSearchFuel (r : Re) (s : List Char) : Nat → Nat → Bool
  | i, 0 => mch s r i (fun _ => true)
  | i, n + 1 => mch s r i (fun _ => true) || reSearchFuel r s (i + 1) n

/-- Python `re.search`: does `r` match starting at any position of `s`
(including the end-of-string position)? -/
def reSearch (r : Re) (s : List Char) : Bool := reSearchFuel r s 0 s.length

/-- A sequence of literal characters. -/
def reStr (w : String) : Re := w.data.foldr (fun c r => Re.cat (.lit c) r) .eps

/-- Concatenation of a list of regexes. -/
def reCat (rs : List Re) : Re := rs.foldr Re.cat .eps

/-- Alternation of a list of regexes (never used on the empty list). -/
def reAlts : List Re → Re
  | [] => .cls (fun _ => false)
  | [r] => r
  | r :: rest => .alt r (reAlts rest)

/-- Alternation of literal words, as in `(write|create|give)`. -/
def reWords (ws : List String) : Re := reAlts (ws.map reStr)

/-- `r?` -/
def reOpt (r : Re) : Re := .alt r .eps

/-- `r` repeated at most `n` times. -/
def reRepUpTo (r : Re) : Nat → Re
  | 0 => .eps
  | n + 1 => .alt .eps (.cat r (reRepUpTo r n))

/-- Python wildcard span `.\x7b0,n\x7d`. -/
def dotUpTo (n : Nat) : Re := reRepUpTo (.cls pyDot) n

/-- `\s*` -/
def wsStar : Re := .starCls pyWs

/-- `\s+` -/
def wsPlus : Re := .cat (.cls pyWs) (.starCls pyWs)

/-- `\bw\b` for a literal word `w`. -/
def reWord (w : String) : Re := reCat [.wordb, reStr w, .wordb]

/-- `HARMFUL_PATTERNS` of `modules/safety.py`: ordered (pattern, topic
description) rules. The comment before each entry is the Python regex it
embeds. -/
def HARMFUL_PATTERNS : List (Re × String) := [
  -- \b(write|create|give|provide|show).\x7b0,20\x7d(exploit|payload|shellcode)\b
  (reCat [.wordb, reWords ["write", "create", "give", "provide", "show"],
    dotUpTo 20, reWords ["exploit", "payload", "shellcode"], .wordb],
   "exploit/payload creation"),
  -- \b(reverse|bind).\x7b0,10\x7dshell\b
  (reCat [.wordb, reWords ["reverse", "bind"], dotUpTo 10, reStr "shell", .wordb],
   "reverse/bind shell creation"),
  -- \bhow\s+to\s+(hack|exploit|breach|break\s+into)\b
  (reCat [.wordb, reStr "how", wsPlus, reStr "to", wsPlus,
    reAlts [reStr "hack", reStr "exploit", reStr "breach",
      reCat [reStr "break", wsPlus, reStr "into"]], .wordb],
   "intrusion guidance"),
  -- \b(write|create|give|provide).\x7b0,20\x7d(malware|virus|trojan|ransomware|keylogger|rootkit)\b
  (reCat [.wordb, reWords ["write", "create", "give", "provide"], dotUpTo 20,
    reWords ["malware", "virus", "trojan", "ransomware", "keylogger", "rootkit"],
    .wordb],
   "malware creation"),
  -- \bmalware.\x7b0,15\x7d(code|source|script)\b
  (reCat [.wordb, reStr "malware", dotUpTo 15,
    reWords ["code", "source", "script"], .wordb],
   "malware code request"),
  -- \b(crack|brute\s*force|steal).\x7b0,15\x7d(password|credential|hash)\b
  (reCat [.wordb,
    reAlts [reStr "crack", reCat [reStr "brute", wsStar, reStr "force"],
      reStr "steal"],
    dotUpTo 15, reWords ["password", "credential", "hash"], .wordb],
   "credential attacks"),
  -- \bhash.\x7b0,10\x7d(crack|break)\b
  (reCat [.wordb, reStr "hash", dotUpTo 10, reWords ["crack", "break"], .wordb],
   "password hash cracking"),
  -- \bbypass.\x7b0,15\x7d(authentication|firewall|antivirus|edr|security)\b
  (reCat [.wordb, reStr "bypass", dotUpTo 15,
    reWords ["authentication", "firewall", "antivirus", "edr", "security"],
    .wordb],
   "security bypass"),
  -- \b(evade|avoid).\x7b0,15\x7d(detection|antivirus|edr)\b
  (reCat [.wordb, reWords ["evade", "avoid"], dotUpTo 15,
    reWords ["detection", "antivirus", "edr"], .wordb],
   "detection evasion"),
  -- \b(ddos|dos)\s*(attack|script|tool)\b
  (reCat [.wordb, reWords ["ddos", "dos"], wsStar,
    reWords ["attack", "script", "tool"], .wordb],
   "denial of service"),
  -- \bman.in.the.middle\s*(attack|how)\b
  (reCat [.wordb, reStr "man", .cls pyDot, reStr "in", .cls pyDot,
    reStr "the", .cls pyDot, reStr "middle", wsStar,
    reWords ["attack", "how"], .wordb],
   "MITM attack"),
  -- \bsql\s*injection.\x7b0,15\x7d(payload|bypass|code)\b
  (reCat [.wordb, reStr "sql", wsStar, reStr "injection", dotUpTo 15,
    reWords ["payload", "bypass", "code"], .wordb],
   "SQL injection payload"),
  -- \bxss.\x7b0,15\x7d(payload|bypass|code)\b
  (reCat [.wordb, reStr "xss", dotUpTo 15,
    reWords ["payload", "bypass", "code"], .wordb],
   "XSS payload"),
  -- \b(without|no).\x7b0,15\x7d(permission|authorization|consent)\b
  (reCat [.wordb, reWords ["without", "no"], dotUpTo 15,
    reWords ["permission", "authorization", "consent"], .wordb],
   "unauthorized access"),
  -- \baccess.\x7b0,15\x7d(someone|other|victim).\x7b0,10\x7d(account|system|network)\b
  (reCat [.wordb, reStr "access", dotUpTo 15,
    reWords ["someone", "other", "victim"], dotUpTo 10,
    reWords ["account", "system", "network"], .wordb],
   "unauthorized system access")]

/-- `DEFENSIVE_CONTEXT` of `modules/safety.py`: defensive/educational
keyword patterns; a match by any of them mitigates harmful patterns. -/
def DEFENSIVE_CONTEXT : List Re := [
  reWord "defend", reWord "defense", reWord "defensive",
  reWord "protect", reWord "protection",
  reWord "detect", reWord "detection",
  reWord "prevent", reWord "prevention",
  reWord "mitigate", reWord "mitigation",
  reWord "harden", reWord "hardening",
  reWord "secure", reWord "securing",
  reWord "lab",
  -- \btest\s*environment\b
  reCat [.wordb, reStr "test", wsStar, reStr "environment", .wordb],
  reWord "authorized", reWord "permission",
  reWord "understand",
  -- \bhow\s*it\s*works\b
  reCat [.wordb, reStr "how", wsStar, reStr "it", wsStar, reStr "works", .wordb],
  -- \bindicators?\b
  reCat [.wordb, reStr "indicator", reOpt (.lit 's'), .wordb],
  reWord "ioc",
  reWord "forensic", reWord "analysis"]

/-- Python `str.lower` (ASCII scope). -/
def pyLower (s : List Char) : List Char := s.map Char.toLower

/-- `str.lower` on the `String` wrapper, for the message template. -/
def strLower (s : String) : String := String.mk (pyLower s.data)

/-- Result of a safety check (`SafetyCheck` dataclass). -/
structure SafetyCheck where
  is_safe : Bool
  reason : String
  suggestion : String
deriving DecidableEq, Repr

/-- Python substring test `needle in hay` on character sequences. -/
def containsSeq (hay needle : List Char) : Bool :=
  match hay with
  | [] => needle.isEmpty
  | c :: t => needle.isPrefixOf (c :: t) || containsSeq t needle

/-- The `alternatives` dict of `SafetyFilter._get_safe_alternative`, in
insertion order (Python dicts preserve it). -/
def alternatives : List (String × String) := [
  ("exploit/payload creation",
   "I can explain how exploits work conceptually, discuss CVE details, or help you set up detection for exploit attempts."),
  ("reverse/bind shell creation",
   "I can explain what reverse shells are, how to detect them in network traffic, and how to harden systems against them."),
  ("intrusion guidance",
   "I can help you understand attack techniques for defensive purposes, set up authorized penetration testing, or improve your security posture."),
  ("malware creation",
   "I can explain malware behavior, help you analyze samples safely, or set up detection rules for malware indicators."),
  ("credential attacks",
   "I can help you implement strong authentication, detect credential attacks, and set up password policies and monitoring."),
  ("security bypass",
   "I can help you test your security controls legitimately, improve defense-in-depth, and detect bypass attempts."),
  ("detection evasion",
   "I can help improve your detection capabilities, understand evasion techniques for better defense, and tune your security tools."),
  ("denial of service",
   "I can help you protect against DoS attacks, set up rate limiting, and implement DDoS mitigation strategies."),
  ("SQL injection payload",
   "I can help you understand SQL injection for defensive purposes, implement input validation, and set up WAF rules."),
  ("XSS payload",
   "I can help you understand XSS for defensive purposes, implement CSP headers, and sanitize user input."),
  ("unauthorized access",
   "I can only help with authorized security testing. I can assist with setting up proper authorization for pentests.")]

/-- The generic fallback suggestion returned when no `alternatives` key is
contained in the topic. -/
def genericAlternative : String :=
  "I can help you understand this topic from a defensive perspective, set up detection, or improve your security posture."

/-- The lookup loop of `_get_safe_alternative`: first entry whose key is a
substring of the topic wins; otherwise the generic fallback. -/
def altLoop (topic : String) : List (String × String) → String
  | [] => genericAlternative
  | (key, suggestion) :: rest =>
    if containsSeq topic.data key.data then suggestion else altLoop topic rest

/-- `SafetyFilter._get_safe_alternative`. -/
def get_safe_alternative (topic : String) : String := altLoop topic alternatives

/-- The `has_defensive_context` test of `check_input`: does any pattern of
`DEFENSIVE_CONTEXT` match the (lower-cased) text? -/
def has_defensive_context (textLower : List Char) : Bool :=
  DEFENSIVE_CONTEXT.any (fun dp => reSearch dp textLower)

/-- The rule-scanning loop of `SafetyFilter.check_input`, parameterised by
the (already lower-cased) text and the remaining rules. A rule whose pattern
matches blocks unless some defensive pattern also matches the text;
otherwise scanning continues. -/
def checkLoop (textLower : List Char) : List (Re × String) → SafetyCheck
  | [] => { is_safe := true, reason := "Input appears safe", suggestion := "" }
  | (pattern, description) :: rest =>
    if reSearch pattern textLower then
      if !(has_defensive_context textLower) then
        { is_safe := false,
          reason := "Request appears to involve " ++ description,
          suggestion := get_safe_alternative description }
      else checkLoop textLower rest
    else checkLoop textLower rest

/-- `SafetyFilter.check_input`: lower-case the text, then scan the rules. -/
def check_input (text : List Char) : SafetyCheck :=
  checkLoop (pyLower text) HARMFUL_PATTERNS

/-- `SafetyFilter.get_safety_response`: the fixed refusal template. -/
def get_safety_response (check : SafetyCheck) : String :=
  "🛡️ **Safety Notice**\n\nI can\x27t help with requests that could enable "
    ++ strLower check.reason ++
    ".\n\n**What I can help with instead:**\n"
    ++ check.suggestion ++
    "\n\n**Safe alternatives:**\n- Explain the technique at a conceptual level\n- Set up detection and monitoring\n- Implement defensive controls\n- Practice in authorized lab environments\n- Study for security certifications\n\nWould you like me to help with any of these instead?"

/-- Module-level `check_safety`: `(is_safe, message)`, with the formatted
refusal on block and the empty message on allow. -/
def check_safety (text : List Char) : Bool × String :=
  let check := check_input text
  if check.is_safe then (true, "") else (false, get_safety_response check)

/-- A chat message of `modules/ai_engine.py` (`Message` dataclass). -/
structure Message where
  role : String
  content : String
deriving DecidableEq, Repr

/-- Conversation history (`Conversation` dataclass); `max_history`
defaults to 20. -/
structure Conversation where
  messages : List Message := []
  max_history : Nat := 20
deriving DecidableEq, Repr

/-- Python list slice `l[x:]` for a possibly negative start index:
a negative `x` counts from the end, clamped at the front of the list. -/
def pySliceFrom (l : List α) (x : Int) : List α :=
  if 0 ≤ x then l.drop x.toNat else l.drop ((l.length + x).toNat)

/-- `Conversation.add_message`: append, then, when the list has grown past
`max_history`, rebuild it as all system messages followed by the Python
slice `other_msgs[-(max_history - len(system_msgs)):]` of the non-system
messages. The slice argument is computed in `Int`, as Python does. -/
def add_message (c : Conversation) (role content : String) : Conversation :=
  let msgs := c.messages ++ [{ role := role, content := content }]
  if msgs.length > c.max_history then
    let system_msgs := msgs.filter (fun m => m.role == "system")
    let other_msgs := msgs.filter (fun m => !(m.role == "system"))
    let keep : Int := (c.max_history : Int) - (system_msgs.length : Int)
    { c with messages := system_msgs ++ pySliceFrom other_msgs (-keep) }
  else { c with messages := msgs }

/-- Outcome of one front-end chat turn: either the safety refusal is shown
and the LLM is never invoked, or the text recorded in `answered` is the
argument actually passed to the LLM and the second field is its reply. -/
inductive ChatOutcome where
  | blocked : String → ChatOutcome
  | answered : List Char → String → ChatOutcome
deriving DecidableEq

/-- The CLI chat turn of `main.py` (`SpiderTutor.chat`): run `check_safety`,
print the safety message and stop on block, otherwise call
`self.ai.chat(user_input)`. The LLM adapter is the parameter `llm`. -/
def cli_chat (llm : List Char → String) (user_input : List Char) : ChatOutcome :=
  let r := check_safety user_input
  if !r.1 then .blocked r.2
  else .answered user_input (llm user_input)

/-- Result of the web chat endpoint of `web_app.py`: an error JSON with an
HTTP status, or a response JSON whose first field records the text passed
to the LLM. -/
inductive WebResult where
  | errorJson : Nat → String → WebResult
  | okJson : List Char → String → WebResult
deriving DecidableEq

/-- `POST /api/chat` of `web_app.py`: on block answer status 400 with the
safety message as the error; otherwise call `ai.chat(data.message)`. -/
def web_chat (llm : List Char → String) (message : List Char) : WebResult :=
  let r := check_safety message
  if !r.1 then .errorJson 400 r.2
  else .okJson message (llm message)

/-- `chat_with_spider` of the Gradio front end `app.py`: returns the pair
(reply, chat history). On block the safety message is returned and the
history is unchanged; otherwise the LLM reply is returned and the
(message, reply) pair is appended to the history. -/
def chat_with_spider (llm : List Char → String) (message : List Char)
    (chat_history : List (List Char × String)) :
    String × List (List Char × String) :=
  let r := check_safety message
  if !r.1 then (r.2, chat_history)
  else
    let response := llm message
    (response, chat_history ++ [(message, response)])

/-- Spec-side global formula for classification (claim C3): ALLOW exactly
when no harmful pattern matches the lower-cased text or some defensive
pattern matches it. Written from the words of the spec, to be compared
with the per-rule loop of `check_input`. -/
def check_input_spec (text : List Char) : Bool :=
  !(HARMFUL_PATTERNS.any (fun pd => reSearch pd.1 (pyLower text))) ||
    has_defensive_context (pyLower text)

/-- The existential part of claim C2: some input text has a rule that
matches the normalized text and is mitigated by a defensive signal, while
a later rule still blocks, so that the classification is BLOCK with the
later rule as its topic. -/
def mitigatedThenLaterBlock : Prop :=
  ∃ (text : List Char) (i j : Nat) (hi : i < HARMFUL_PATTERNS.length)
    (hj : j < HARMFUL_PATTERNS.length),
    i < j ∧
    reSearch (HARMFUL_PATTERNS.get ⟨i, hi⟩).1 (pyLower text) = true ∧
    has_defensive_context (pyLower text) = true ∧
    (check_input text).is_safe = false ∧
    (check_input text).reason =
      "Request appears to involve " ++ (HARMFUL_PATTERNS.get ⟨j, hj⟩).2

/-- A conversation with retention limit 1 that receives one system message
and then two user messages (claim C8). -/
def c8CexConv : Conversation :=
  add_message (add_message (add_message { messages := [], max_history := 1 }
    "system" "s1") "user" "u1") "user" "u2"

/-- A conversation with retention limit 1 that receives two system
messages (claim C9). -/
def c9CexConv : Conversation :=
  add_message (add_message { messages := [], max_history := 1 }
    "system" "s1") "system" "s2"

instance : Inhabited Re := ⟨.eps⟩

/-! Helper lemmas about the rule-scanning loop. -/

theorem checkLoop_cons_skip (tl : List Char) (p : Re) (d : String)
    (rest : List (Re × String)) (h : reSearch p tl = false) :
    checkLoop tl ((p, d) :: rest) = checkLoop tl rest := by
  simp [checkLoop, h]

theorem checkLoop_cons_mitigated (tl : List Char) (p : Re) (d : String)
    (rest : List (Re × String)) (hd : has_defensive_context tl = true) :
    checkLoop tl ((p, d) :: rest) = checkLoop tl rest := by
  cases h : reSearch p tl <;> simp [checkLoop, h, hd]

theorem checkLoop_cons_block (tl : List Char) (p : Re) (d : String)
    (rest : List (Re × String)) (hm : reSearch p tl = true)
    (hd : has_defensive_context tl = false) :
    checkLoop tl ((p, d) :: rest) =
      { is_safe := false, reason := "Request appears to involve " ++ d,
        suggestion := get_safe_alternative d } := by
  simp [checkLoop, hm, hd]

theorem checkLoop_append_skip (tl : List Char) (pre rules : List (Re × String))
    (h : ∀ qd ∈ pre, reSearch qd.1 tl = false) :
    checkLoop tl (pre ++ rules) = checkLoop tl rules := by
  induction pre with
  | nil => rfl
  | cons qd t ih =>
    obtain ⟨q, d⟩ := qd
    rw [List.cons_append, checkLoop_cons_skip _ _ _ _ (h (q, d) (.head _))]
    exact ih (fun x hx => h x (.tail _ hx))

theorem checkLoop_is_safe_eq (tl : List Char) (rules : List (Re × String)) :
    (checkLoop tl rules).is_safe =
      (!(rules.any (fun pd => reSearch pd.1 tl)) || has_defensive_context tl) := by
  induction rules with
  | nil => simp [checkLoop]
  | cons pd rest ih =>
    obtain ⟨p, d⟩ := pd
    cases hm : reSearch p tl <;> cases hd : has_defensive_context tl <;>
      simp [checkLoop, hm, hd, ih]

theorem checkLoop_of_defensive (tl : List Char)
    (hd : has_defensive_context tl = true) (rules : List (Re × String)) :
    checkLoop tl rules =
      { is_safe := true, reason := "Input appears safe", suggestion := "" } := by
  induction rules with
  | nil => rfl
  | cons pd rest ih =>
    obtain ⟨p, d⟩ := pd
    rw [checkLoop_cons_mitigated _ _ _ _ hd]
    exact ih

theorem checkLoop_result_cases (tl : List Char) (rules : List (Re × String)) :
    checkLoop tl rules =
        { is_safe := true, reason := "Input appears safe", suggestion := "" } ∨
      ∃ pd ∈ rules, checkLoop tl rules =
        { is_safe := false, reason := "Request appears to involve " ++ pd.2,
          suggestion := get_safe_alternative pd.2 } := by
  induction rules with
  | nil => exact .inl rfl
  | cons pd rest ih =>
    obtain ⟨p, d⟩ := pd
    cases hm : reSearch p tl with
    | false =>
      rw [checkLoop_cons_skip _ _ _ _ hm]
      rcases ih with h | ⟨qd, hq, h⟩
      · exact .inl h
      · exact .inr ⟨qd, .tail _ hq, h⟩
    | true =>
      cases hd : has_defensive_context tl with
      | true =>
        rw [checkLoop_cons_mitigated _ _ _ _ hd]
        rcases ih with h | ⟨qd, hq, h⟩
        · exact .inl h
        · exact .inr ⟨qd, .tail _ hq, h⟩
      | false =>
        exact .inr ⟨(p, d), .head _, checkLoop_cons_block _ _ _ _ hm hd⟩

/-- C1: if some rule pattern matches the lower-cased text and no
Context-Signal matches it, `check_input` returns BLOCK with the topic of
the earliest matching rule in declaration order, and the rules after that
one are not evaluated: the result is the same for every tail of the rule
list after the blocking rule. -/
theorem first_unmitigated_rule_blocks (text : List Char)
    (pre rest : List (Re × String)) (p : Re) (d : String)
    (hsplit : HARMFUL_PATTERNS = pre ++ (p, d) :: rest)
    (hpre : ∀ qd ∈ pre, reSearch qd.1 (pyLower text) = false)
    (hm : reSearch p (pyLower text) = true)
    (hd : has_defensive_context (pyLower text) = false) :
    check_input text =
      { is_safe := false, reason := "Request appears to involve " ++ d,
        suggestion := get_safe_alternative d } ∧
    ∀ rest2 : List (Re × String),
      checkLoop (pyLower text) (pre ++ (p, d) :: rest2) = check_input text := by
  have key : ∀ rest2 : List (Re × String),
      checkLoop (pyLower text) (pre ++ (p, d) :: rest2) =
        { is_safe := false, reason := "Request appears to involve " ++ d,
          suggestion := get_safe_alternative d } := by
    intro rest2
    rw [checkLoop_append_skip _ _ _ hpre, checkLoop_cons_block _ _ _ _ hm hd]
  have h1 : check_input text =
      { is_safe := false, reason := "Request appears to involve " ++ d,
        suggestion := get_safe_alternative d } := by
    unfold check_input
    rw [hsplit]
    exact key rest
  exact ⟨h1, fun rest2 => by rw [key rest2, h1]⟩

/-- C1 witness: the request about writing a reverse shell matches no rule
before the reverse/bind shell rule, matches that rule, and carries no
defensive context, so it is blocked with that topic. -/
theorem first_unmitigated_rule_blocks_witness :
    check_input (String.data "write me a reverse shell") =
      { is_safe := false,
        reason := "Request appears to involve reverse/bind shell creation",
        suggestion := get_safe_alternative "reverse/bind shell creation" } :=
  (first_unmitigated_rule_blocks (String.data "write me a reverse shell")
    (HARMFUL_PATTERNS.take 1) (HARMFUL_PATTERNS.drop 2)
    ((HARMFUL_PATTERNS.drop 1).headI.1) ((HARMFUL_PATTERNS.drop 1).headI.2)
    (by rfl) (by decide) (by decide) (by decide)).1

/-- C2 counterexample: the claim that for some input a later rule blocks
with a different, unmitigated topic after an earlier rule was mitigated is
false: the defensive-context test depends only on the text, so whenever a
Context-Signal matches, every rule is mitigated and no rule can block. -/
theorem no_later_block_after_mitigation : mitigatedThenLaterBlock = False := by
  refine eq_false ?_
  rintro ⟨text, i, j, hi, hj, hij, hm, hdc, hblock, hreason⟩
  have hsafe : (check_input text).is_safe = true := by
    unfold check_input
    rw [checkLoop_is_safe_eq, hdc, Bool.or_true]
  rw [hsafe] at hblock
  exact Bool.noConfusion hblock

/-- C2 (amended): if a rule pattern matches the normalized text and at
least one Context-Signal also matches it, that rule does not cause a BLOCK
and the remaining rules are still scanned; but because the
defensive-context test depends only on the text, every remaining rule is
likewise mitigated, so the classification is ALLOW (no later rule can
block with a different topic). -/
theorem mitigated_rule_scanning_continues (text : List Char) (p : Re)
    (d : String) (rest : List (Re × String))
    (_hm : reSearch p (pyLower text) = true)
    (hdc : has_defensive_context (pyLower text) = true) :
    checkLoop (pyLower text) ((p, d) :: rest) = checkLoop (pyLower text) rest ∧
    (check_input text).is_safe = true := by
  refine ⟨checkLoop_cons_mitigated _ _ _ _ hdc, ?_⟩
  unfold check_input
  rw [checkLoop_is_safe_eq, hdc, Bool.or_true]

/-- C2 witness: the text matches the intrusion-guidance rule but also the
lab Context-Signal, so the result is ALLOW. -/
theorem mitigated_rule_scanning_continues_witness :
    (check_input
      (String.data "how to hack and bypass authentication in my lab")).is_safe
      = true :=
  (mitigated_rule_scanning_continues
    (String.data "how to hack and bypass authentication in my lab")
    ((HARMFUL_PATTERNS.drop 2).headI.1) ((HARMFUL_PATTERNS.drop 2).headI.2)
    (HARMFUL_PATTERNS.drop 3) (by decide) (by decide)).2

/-- C3: the per-rule loop of `check_input` is equivalent to the single
global formula: the result is ALLOW exactly when no harmful pattern
matches the lower-cased text or at least one defensive pattern matches
it. -/
theorem check_input_equiv_global_formula (text : List Char) :
    (check_input text).is_safe = check_input_spec text := by
  unfold check_input check_input_spec
  exact checkLoop_is_safe_eq _ _

set_option maxRecDepth 8000 in
/-- C5 counterexample: an input CAN be blocked with the unauthorized-access
topic through the permission alternative of the rule, because the rule has
no word boundary before its (permission|authorization|consent) group: in
the text without xpermission the rule matches via permission inside the
larger word xpermission, while the Context-Signal for permission requires
a word boundary and does not match, so the input is blocked. -/
theorem blocked_despite_permission_inside_word :
    check_input (String.data "without xpermission") =
      { is_safe := false,
        reason := "Request appears to involve unauthorized access",
        suggestion := get_safe_alternative "unauthorized access" } ∧
    reSearch (reWord "permission")
      (pyLower (String.data "without xpermission")) = false := by
  decide

/-- C5 (amended): any input whose case-normalized text contains the word
permission as a whole word is classified ALLOW, because the pattern for
permission is itself a Context-Signal that mitigates every rule. (The
stronger reading of the claim, that no input is ever blocked with the
unauthorized-access topic by matching the permission alternative of the
rule, is false: the alternative can match inside a larger word, where the
whole-word Context-Signal does not fire.) -/
theorem permission_word_implies_allow (text : List Char)
    (h : reSearch (reWord "permission") (pyLower text) = true) :
    check_input text =
      { is_safe := true, reason := "Input appears safe", suggestion := "" } := by
  have hdc : has_defensive_context (pyLower text) = true := by
    unfold has_defensive_context
    refine List.any_eq_true.mpr ⟨reWord "permission", ?_, h⟩
    unfold DEFENSIVE_CONTEXT
    simp
  unfold check_input
  exact checkLoop_of_defensive _ hdc _

/-- C5 witness: a request about access without permission matches the
unauthorized-access rule, yet the whole-word occurrence of permission
makes the classification ALLOW. -/
theorem permission_word_implies_allow_witness :
    check_input (String.data "access without permission") =
      { is_safe := true, reason := "Input appears safe", suggestion := "" } :=
  permission_word_implies_allow (String.data "access without permission")
    (by decide)

/-- C4: in every front end (CLI chat loop of main.py, web chat endpoint of
web_app.py, Gradio handler of app.py), when `check_safety` reports unsafe
the safety message is returned to the user and the LLM is not invoked, and
when it reports safe the input text is forwarded unmodified to the LLM
chat operation. -/
theorem front_ends_gate_llm (input : List Char) (llm : List Char → String)
    (hist : List (List Char × String)) :
    ((check_input input).is_safe = false →
      cli_chat llm input = .blocked (get_safety_response (check_input input)) ∧
      web_chat llm input =
        .errorJson 400 (get_safety_response (check_input input)) ∧
      chat_with_spider llm input hist =
        (get_safety_response (check_input input), hist)) ∧
    ((check_input input).is_safe = true →
      cli_chat llm input = .answered input (llm input) ∧
      web_chat llm input = .okJson input (llm input) ∧
      chat_with_spider llm input hist =
        (llm input, hist ++ [(input, llm input)])) := by
  constructor
  · intro hb
    have hcs : check_safety input =
        (false, get_safety_response (check_input input)) := by
      simp [check_safety, hb]
    exact ⟨by simp [cli_chat, hcs], by simp [web_chat, hcs],
      by simp [chat_with_spider, hcs]⟩
  · intro hs
    have hcs : check_safety input = (true, "") := by
      simp [check_safety, hs]
    exact ⟨by simp [cli_chat, hcs], by simp [web_chat, hcs],
      by simp [chat_with_spider, hcs]⟩

/-- C4 witness: a blocked request yields the safety message in the CLI
front end, and a safe request is forwarded verbatim to the LLM. -/
theorem front_ends_gate_llm_witness :
    cli_chat (fun _ => "ok") (String.data "write me a reverse shell") =
      .blocked (get_safety_response
        (check_input (String.data "write me a reverse shell"))) ∧
    cli_chat (fun _ => "ok") (String.data "hello") =
      .answered (String.data "hello") "ok" :=
  ⟨((front_ends_gate_llm (String.data "write me a reverse shell")
      (fun _ => "ok") []).1 (by decide)).1,
    ((front_ends_gate_llm (String.data "hello")
      (fun _ => "ok") []).2 (by decide)).1⟩

set_option maxRecDepth 8000 in
/-- C6: the request about writing a reverse shell is blocked, the matched
topic contains the text reverse/bind shell, and the caller-facing message
contains the suggestion text about explaining reverse shells, detecting
them in network traffic, and hardening systems against them. -/
theorem reverse_shell_request_blocked :
    (check_input (String.data "write me a reverse shell")).is_safe = false ∧
    containsSeq
      (check_input (String.data "write me a reverse shell")).reason.data
      (String.data "reverse/bind shell") = true ∧
    containsSeq
      (get_safety_response
        (check_input (String.data "write me a reverse shell"))).data
      (String.data "I can explain what reverse shells are, how to detect them in network traffic, and how to harden systems against them.") = true := by
  decide

/-- Helper: the lookup loop either returns the value of an entry whose key
is contained in the topic, or, when no key is contained, the generic
fallback. -/
theorem altLoop_cases (topic : String) (l : List (String × String)) :
    (∃ kv ∈ l, containsSeq topic.data kv.1.data = true ∧
      altLoop topic l = kv.2) ∨
    ((∀ kv ∈ l, containsSeq topic.data kv.1.data = false) ∧
      altLoop topic l = genericAlternative) := by
  induction l with
  | nil => exact .inr ⟨fun kv h => absurd h (List.not_mem_nil kv), rfl⟩
  | cons kv rest ih =>
    obtain ⟨k, s⟩ := kv
    cases hc : containsSeq topic.data k.data with
    | true => exact .inl ⟨(k, s), .head _, hc, by simp [altLoop, hc]⟩
    | false =>
      rcases ih with ⟨qv, hq, hc2, he⟩ | ⟨hall, he⟩
      · exact .inl ⟨qv, .tail _ hq, hc2, by simp [altLoop, hc, he]⟩
      · refine .inr ⟨?_, by simp [altLoop, hc, he]⟩
        intro qv hq
        rcases List.mem_cons.mp hq with h | h
        · rw [h]
          exact hc
        · exact hall qv h

/-- C7: for every blocked topic string, the suggestion lookup returns the
value of a Suggestion Table entry whose key is contained in the topic, or
the fixed generic fallback when no key is contained in it; the result is
never empty. -/
theorem suggestion_lookup_total (topic : String) :
    ((∃ kv ∈ alternatives, containsSeq topic.data kv.1.data = true ∧
        get_safe_alternative topic = kv.2) ∨
      ((∀ kv ∈ alternatives, containsSeq topic.data kv.1.data = false) ∧
        get_safe_alternative topic = genericAlternative)) ∧
    get_safe_alternative topic ≠ "" := by
  have h := altLoop_cases topic alternatives
  refine ⟨h, ?_⟩
  have hvals : ∀ kv ∈ alternatives, kv.2 ≠ "" := by decide
  rcases h with ⟨kv, hkv, _, he⟩ | ⟨_, he⟩
  · rw [show get_safe_alternative topic = kv.2 from he]
    exact hvals kv hkv
  · rw [show get_safe_alternative topic = genericAlternative from he]
    decide

/-! Helper lemmas for the conversation buffer. -/

theorem length_filter_partition (p : α → Bool) (l : List α) :
    (l.filter p).length + (l.filter (fun a => !(p a))).length = l.length := by
  induction l with
  | nil => rfl
  | cons a t ih => cases h : p a <;> simp [List.filter_cons, h] <;> omega

theorem pySliceFrom_neg (l : List α) (k : Nat) (hk : 0 < k) :
    pySliceFrom l (-(k : Int)) = l.drop (l.length - k) := by
  unfold pySliceFrom
  rw [if_neg (by omega)]
  have harg : ((l.length : Int) + -(k : Int)).toNat = l.length - k := by omega
  rw [harg]

theorem add_message_trim_eq (c : Conversation) (role content : String)
    (hgt : (c.messages ++ [Message.mk role content]).length > c.max_history)
    (hsys : ((c.messages ++ [Message.mk role content]).filter
        (fun m => m.role == "system")).length < c.max_history) :
    (add_message c role content).messages =
      (c.messages ++ [Message.mk role content]).filter (fun m => m.role == "system") ++
        ((c.messages ++ [Message.mk role content]).filter
            (fun m => !(m.role == "system"))).drop
          (((c.messages ++ [Message.mk role content]).filter
              (fun m => !(m.role == "system"))).length -
            (c.max_history -
              ((c.messages ++ [Message.mk role content]).filter
                  (fun m => m.role == "system")).length)) := by
  simp only [add_message]
  rw [if_pos hgt]
  have harg : -((c.max_history : Int) -
      (((c.messages ++ [Message.mk role content]).filter
          (fun m => m.role == "system")).length : Int)) =
      -(((c.max_history -
        ((c.messages ++ [Message.mk role content]).filter
            (fun m => m.role == "system")).length : Nat) : Int)) := by
    omega
  rw [harg, pySliceFrom_neg _ _ (by omega)]

/-- C8 counterexample: with retention limit 1, a system message followed by
two user messages is retained in full (the Python slice with start `-0`
keeps every non-system message), so the list does not consist of the system
messages plus exactly `max_history - 1` non-system messages: two non-system
messages survive although `max_history - #system = 0`. -/
theorem conversation_trim_count_cex :
    c8CexConv.messages =
      [Message.mk "system" "s1", Message.mk "user" "u1", Message.mk "user" "u2"] ∧
    c8CexConv.max_history = 1 ∧
    (c8CexConv.messages.filter (fun m => !(m.role == "system"))).length = 2 ∧
    c8CexConv.max_history -
      (c8CexConv.messages.filter (fun m => m.role == "system")).length = 0 := by
  decide

/-- C8 (amended): when appending exceeds the retention limit and the number
of system messages is strictly below `max_history`, the new list is every
system-role message (in original relative order) followed by exactly the
most recent `max_history - #system` non-system messages (in original
relative order): system messages are moved before the retained non-system
messages, and the total length is exactly `max_history`. -/
theorem conversation_trim_retains (c : Conversation) (role content : String)
    (hgt : (c.messages ++ [Message.mk role content]).length > c.max_history)
    (hsys : ((c.messages ++ [Message.mk role content]).filter
        (fun m => m.role == "system")).length < c.max_history) :
    (add_message c role content).messages =
      (c.messages ++ [Message.mk role content]).filter (fun m => m.role == "system") ++
        ((c.messages ++ [Message.mk role content]).filter
            (fun m => !(m.role == "system"))).drop
          (((c.messages ++ [Message.mk role content]).filter
              (fun m => !(m.role == "system"))).length -
            (c.max_history -
              ((c.messages ++ [Message.mk role content]).filter
                  (fun m => m.role == "system")).length)) ∧
    (add_message c role content).messages.length = c.max_history := by
  have he := add_message_trim_eq c role content hgt hsys
  refine ⟨he, ?_⟩
  rw [he]
  have hpart := length_filter_partition (fun m => m.role == "system")
    (c.messages ++ [Message.mk role content])
  simp only [List.length_append, List.length_drop]
  omega

/-- C8 witness: a three-message history with limit 3 receives a fourth
message; the system message is kept, the two most recent user messages are
kept, and the length is exactly the limit. -/
theorem conversation_trim_retains_witness :
    (add_message
      { messages := [Message.mk "user" "u1", Message.mk "user" "u2", Message.mk "system" "s1"],
        max_history := 3 } "user" "u3").messages =
      [Message.mk "system" "s1", Message.mk "user" "u2", Message.mk "user" "u3"] ∧
    (add_message
      { messages := [Message.mk "user" "u1", Message.mk "user" "u2", Message.mk "system" "s1"],
        max_history := 3 } "user" "u3").messages.length = 3 :=
  conversation_trim_retains
    { messages := [Message.mk "user" "u1", Message.mk "user" "u2", Message.mk "system" "s1"],
      max_history := 3 } "user" "u3" (by decide) (by decide)

/-- C9 counterexample: with retention limit 1, two system messages leave
the history at length 2, exceeding `max_history`: the length of the
message list is not bounded by `max_history` for arbitrary roles. -/
theorem history_bound_cex :
    c9CexConv.messages.length = 2 ∧ c9CexConv.max_history = 1 := by
  decide

/-- C9 (amended): after `add_message`, the length of the message list is at
most `max_history` provided the system-role messages in the appended list
number strictly fewer than `max_history`. -/
theorem add_message_length_bounded (c : Conversation) (role content : String)
    (hsys : ((c.messages ++ [Message.mk role content]).filter
        (fun m => m.role == "system")).length < c.max_history) :
    (add_message c role content).messages.length ≤ c.max_history := by
  by_cases hgt : (c.messages ++ [Message.mk role content]).length > c.max_history
  · rw [add_message_trim_eq c role content hgt hsys]
    have hpart := length_filter_partition (fun m => m.role == "system")
      (c.messages ++ [Message.mk role content])
    simp only [List.length_append, List.length_drop]
    omega
  · simp only [add_message]
    rw [if_neg hgt]
    exact Nat.le_of_not_lt hgt

/-- C9 witness: appending to an empty two-slot conversation stays within
the bound. -/
theorem add_message_length_bounded_witness :
    (add_message { messages := [], max_history := 2 }
      "user" "u1").messages.length ≤ 2 :=
  add_message_length_bounded { messages := [], max_history := 2 }
    "user" "u1" (by decide)

/-! Helper lemmas for case normalization. -/

theorem toLower_toLower_eq (c : Char) : c.toLower.toLower = c.toLower := by
  by_cases h : Char.toNat c ≥ 65 ∧ Char.toNat c ≤ 90
  · have h1 : c.toLower = Char.ofNat (Char.toNat c + 32) := by
      simp only [Char.toLower]
      rw [if_pos h]
    rw [h1]
    obtain ⟨ha, hb⟩ := h
    obtain ⟨n, hn⟩ : ∃ n, Char.toNat c = n := ⟨_, rfl⟩
    rw [hn] at ha hb ⊢
    interval_cases n <;> decide
  · have h1 : c.toLower = c := by
      simp only [Char.toLower]
      rw [if_neg h]
    rw [h1]
    exact h1

theorem pyLower_idem (s : List Char) : pyLower (pyLower s) = pyLower s := by
  induction s with
  | nil => rfl
  | cons a t ih =>
    simp only [pyLower, List.map_cons] at ih ⊢
    rw [toLower_toLower_eq]
    exact congrArg _ ih

/-- C10: classification is invariant under lower-casing the input: the
already lower-cased text classifies exactly like the original, the two
spec examples about bypassing authentication agree, and the result never
contains the input text: it is always either the fixed ALLOW record or the
fixed BLOCK record of one of the rules. -/
theorem classification_case_insensitive :
    (∀ text : List Char, check_input (pyLower text) = check_input text) ∧
    check_input (String.data "BYPASS AUTHENTICATION") =
      check_input (String.data "bypass authentication") ∧
    ∀ text : List Char,
      check_input text =
          { is_safe := true, reason := "Input appears safe", suggestion := "" } ∨
        ∃ pd ∈ HARMFUL_PATTERNS, check_input text =
          { is_safe := false, reason := "Request appears to involve " ++ pd.2,
            suggestion := get_safe_alternative pd.2 } := by
  refine ⟨?_, ?_, ?_⟩
  · intro text
    unfold check_input
    rw [pyLower_idem]
  · unfold check_input
    rw [show pyLower (String.data "BYPASS AUTHENTICATION") =
      pyLower (String.data "bypass authentication") from by decide]
  · intro text
    exact checkLoop_result_cases _ _

end SpiderTutor
